import Mathlib

/-!
Verification of the krnx-bench adapter lifecycle and trial-execution engine.

The Python sources under `bench/` are shallowly embedded: pure computations
become Lean functions, stateful objects are threaded as explicit state
values, exceptions become `Except`/`Option` results, and external effects
(Docker daemon calls, HTTP requests, wall-clock sampling, hash functions)
are abstracted as oracle parameters supplied by the environment.
-/

namespace KrnxBench

/-- A value stored in a metrics mapping or event metadata mapping.
Python dict values here are either strings or numbers; numbers are
modelled as rationals (`float` arithmetic idealised as exact). -/
inductive MValue
  | s (v : String)
  | n (v : ℚ)
deriving DecidableEq

/-- `bench/models.py` `TrialResult`: result of a single trial.
`raw_output`, `error` and `timing_ms` have the dataclass defaults. -/
structure TrialResult where
  trial_id : Nat
  success : Bool
  metrics : List (String × MValue)
  raw_output : Option String := none
  error : Option String := none
  timing_ms : ℚ := 0
deriving DecidableEq

/-- Python truthiness of an `Optional[str]` value: `None` and the empty
string are falsy; used by `sum(1 for r in results if r.error)`. -/
def pyTruthyStr : Option String → Bool
  | none => false
  | some s => !s.isEmpty

/-- `BaseScenario._compute_aggregate` (bench/scenarios/base.py:164-188):
empty input yields the empty mapping; otherwise success rate, mean timing,
error count and total trials are computed over the list. -/
def computeAggregate (results : List TrialResult) : List (String × MValue) :=
  if results.isEmpty then []
  else
    let successes : Nat := (results.filter (fun r => r.success)).length
    let total_timing : ℚ := (results.map (fun r => r.timing_ms)).sum
    let errors : Nat := (results.filter (fun r => pyTruthyStr r.error)).length
    [("success_rate", .n ((successes : ℚ) / (results.length : ℚ))),
     ("mean_timing_ms", .n (total_timing / (results.length : ℚ))),
     ("error_count", .n (errors : ℚ)),
     ("total_trials", .n ((results.length : ℚ)))]

/-- C9: for every non-empty list of TrialResults, `_compute_aggregate`
returns a success_rate exactly equal to the number of successful results
divided by the total, together with the mean timing and the error count,
over a positive total (so the divisions are by a nonzero count); for the
empty list it returns the empty aggregate. -/
theorem c9_aggregate_success_rate (results : List TrialResult) (h : results ≠ []) :
    (computeAggregate results).lookup "success_rate" =
      some (.n (((results.filter (fun r => r.success)).length : ℚ) / (results.length : ℚ)))
    ∧ (computeAggregate results).lookup "mean_timing_ms" =
      some (.n ((results.map (fun r => r.timing_ms)).sum / (results.length : ℚ)))
    ∧ (computeAggregate results).lookup "error_count" =
      some (.n (((results.filter (fun r => pyTruthyStr r.error)).length : ℚ)))
    ∧ 0 < results.length
    ∧ computeAggregate ([] : List TrialResult) = [] := by
  have hne : results.isEmpty = false := by
    cases results with
    | nil => exact absurd rfl h
    | cons a l => rfl
  have hlen : 0 < results.length := by
    cases results with
    | nil => exact absurd rfl h
    | cons a l => simp
  refine ⟨?_, ?_, ?_, hlen, rfl⟩ <;>
    simp [computeAggregate, hne, List.lookup]

/-- Witness for C9 at a concrete two-element list. -/
theorem c9_aggregate_success_rate_witness :
    (computeAggregate
        [{ trial_id := 0, success := true, metrics := [] },
         { trial_id := 1, success := false, metrics := [], error := some "boom" }]).lookup
      "success_rate" = some (.n ((1 : ℚ) / 2)) := by
  have h := c9_aggregate_success_rate
      [{ trial_id := 0, success := true, metrics := [] },
       { trial_id := 1, success := false, metrics := [], error := some "boom" }]
      (by decide)
  have h1 := h.1
  simpa using h1

/-! ## Scenario execution engine (`BaseScenario.run`, bench/scenarios/base.py:88-141)

The adapter and the trial body are external effects; a `RunOracle` records,
per trial index, whether the `adapter.clear()` call before that trial raises
(`some msg`) and what the trial body `_run_trial` does. -/

/-- What the trial body does on one trial: returns a TrialResult, raises
`NotSupported`, or raises some other exception. -/
inductive BodyOutcome
  | ok (r : TrialResult)
  | notSupported (msg : String)
  | exc (msg : String)
deriving DecidableEq

/-- Per-run adapter/trial-body behaviour, indexed by trial id. -/
structure RunOracle where
  clear : Nat → Option String
  body : Nat → BodyOutcome

/-- The TrialResult recorded for one trial of `BaseScenario.run`
(bench/scenarios/base.py:104-121): the body's own result, or a
failure record with error_type not_supported / exception. -/
def trialResultOf (trial_id : Nat) : BodyOutcome → TrialResult
  | .ok r => r
  | .notSupported m =>
    { trial_id := trial_id, success := false,
      metrics := [("error_type", .s "not_supported")], error := some m }
  | .exc m =>
    { trial_id := trial_id, success := false,
      metrics := [("error_type", .s "exception")], error := some m }

/-- The trial loop of `BaseScenario.run` starting at trial id `t` with `n`
trials remaining.  `adapter.clear()` is called OUTSIDE the try block
(base.py:102), so a clear failure is returned as `.error` (an uncaught
exception aborting the run); body failures are converted by
`trialResultOf`.  The second component counts `progress_callback`
invocations (one after each recorded trial when a callback is given). -/
def baseRunFrom (o : RunOracle) (cb : Bool) : Nat → Nat → Except String (List TrialResult) × Nat
  | _, 0 => (.ok [], 0)
  | t, n + 1 =>
    match o.clear t with
    | some m => (.error m, 0)
    | none =>
      let r := trialResultOf t (o.body t)
      let inc : Nat := if cb then 1 else 0
      match baseRunFrom o cb (t + 1) n with
      | (.error m, c) => (.error m, inc + c)
      | (.ok rs, c) => (.ok (r :: rs), inc + c)

/-- `BaseScenario.run` over `trials` trials (returning the recorded
TrialResult list, or the uncaught exception) paired with the number of
progress-callback invocations. -/
def baseRun (o : RunOracle) (cb : Bool) (trials : Nat) : Except String (List TrialResult) × Nat :=
  baseRunFrom o cb 0 trials

theorem baseRunFrom_all_clear (o : RunOracle) (cb : Bool) (n : Nat) :
    ∀ s, (∀ t, s ≤ t → t < s + n → o.clear t = none) →
      baseRunFrom o cb s n =
        (.ok ((List.range n).map (fun k => trialResultOf (s + k) (o.body (s + k)))),
         if cb then n else 0) := by
  induction n with
  | zero => intro s _; simp [baseRunFrom]
  | succ m ih =>
    intro s h
    have hs : o.clear s = none := h s le_rfl (by omega)
    have hrec := ih (s + 1) (fun t h1 h2 => h t (by omega) (by omega))
    simp only [baseRunFrom, hs, hrec, List.range_succ_eq_map, List.map_cons, List.map_map,
      Prod.mk.injEq, Except.ok.injEq, List.cons.injEq, Nat.add_zero]
    refine ⟨⟨trivial, ?_⟩, by cases cb <;> simp <;> omega⟩
    apply List.map_congr_left
    intro k _
    have hk : s + 1 + k = s + (k + 1) := by omega
    simp only [Function.comp_apply, Nat.succ_eq_add_one, hk]

theorem baseRunFrom_first_clear_failure (o : RunOracle) (cb : Bool) (n : Nat) :
    ∀ s t m, s ≤ t → t < s + n → (∀ u, s ≤ u → u < t → o.clear u = none) →
      o.clear t = some m → (baseRunFrom o cb s n).1 = .error m := by
  induction n with
  | zero => intro s t m h1 h2 _ _; omega
  | succ k ih =>
    intro s t m h1 h2 hpre ht
    by_cases hst : t = s
    · subst hst
      simp [baseRunFrom, ht]
    · have hs : o.clear s = none := hpre s le_rfl (by omega)
      have := ih (s + 1) t m (by omega) (by omega)
        (fun u hu1 hu2 => hpre u (by omega) hu2) ht
      simp only [baseRunFrom, hs]
      rcases hrec : baseRunFrom o cb (s + 1) k with ⟨res, c⟩
      rw [hrec] at this
      cases res with
      | error e => simpa using this
      | ok rs => simp at this

/-- C3: in `BaseScenario.run`, when no pre-trial `clear()` fails, every
trial body outcome is recorded: a `NotSupported` from the body yields a
TrialResult with success=false and error_type "not_supported", any other
exception yields error_type "exception", the run records one TrialResult
per trial (exceptions are contained), and all `trials` trials execute. -/
theorem c3_body_failures_contained (o : RunOracle) (cb : Bool) (trials : Nat)
    (h : ∀ t, t < trials → o.clear t = none) :
    (baseRun o cb trials).1 =
      .ok ((List.range trials).map (fun t => trialResultOf t (o.body t)))
    ∧ ((List.range trials).map (fun t => trialResultOf t (o.body t))).length = trials
    ∧ (∀ t m, trialResultOf t (.notSupported m) =
        { trial_id := t, success := false,
          metrics := [("error_type", .s "not_supported")], error := some m })
    ∧ (∀ t m, trialResultOf t (.exc m) =
        { trial_id := t, success := false,
          metrics := [("error_type", .s "exception")], error := some m }) := by
  have := baseRunFrom_all_clear o cb trials 0 (fun t _ h2 => h t (by omega))
  refine ⟨?_, by simp, fun t m => rfl, fun t m => rfl⟩
  simp only [baseRun, this, Nat.zero_add]

/-- Witness for C3 at a concrete two-trial oracle. -/
theorem c3_body_failures_contained_witness :
    (baseRun
        { clear := fun _ => none,
          body := fun t => if t = 0 then .notSupported "nope" else .exc "boom" }
        true 2).1 =
      .ok [{ trial_id := 0, success := false,
             metrics := [("error_type", .s "not_supported")], error := some "nope" },
           { trial_id := 1, success := false,
             metrics := [("error_type", .s "exception")], error := some "boom" }] := by
  have := (c3_body_failures_contained
      { clear := fun _ => none,
        body := fun t => if t = 0 then .notSupported "nope" else .exc "boom" }
      true 2 (fun t _ => rfl)).1
  simpa [trialResultOf] using this

/-- Concrete run oracle whose `clear()` before trial 0 raises. -/
def clearFailOracle : RunOracle :=
  { clear := fun t => if t = 0 then some "clear failed" else none,
    body := fun t => .ok { trial_id := t, success := true, metrics := [] } }

/-- C2 counterexample: with a two-trial run whose first pre-trial `clear()`
raises, `BaseScenario.run` aborts with the uncaught exception — no
TrialResult with error_type "exception" is recorded and the remaining
trial never executes, contradicting the claim that a clear() failure is
recorded as a trial failure and the run continues. -/
theorem c2_counterexample :
    baseRun clearFailOracle true 2 = (.error "clear failed", 0) := by
  rfl

/-- C2 (amended): a failure of the `adapter.clear()` call made before a
trial propagates out of `BaseScenario.run` as an uncaught exception,
aborting the whole run (only failures inside the trial body are converted
to TrialResults): if the first failing clear is before trial `t`, the run
returns that exception. -/
theorem c2_clear_failure_aborts (o : RunOracle) (cb : Bool) (trials t : Nat) (m : String)
    (h1 : t < trials) (h2 : ∀ u, u < t → o.clear u = none) (h3 : o.clear t = some m) :
    (baseRun o cb trials).1 = .error m :=
  baseRunFrom_first_clear_failure o cb trials 0 t m (by omega) (by omega)
    (fun u _ hu => h2 u hu) h3

/-- Witness for the amended C2 at the concrete failing oracle. -/
theorem c2_clear_failure_aborts_witness :
    (baseRun clearFailOracle true 2).1 = .error "clear failed" :=
  c2_clear_failure_aborts clearFailOracle true 2 0 "clear failed"
    (by omega) (fun u hu => absurd hu (by omega)) rfl

/-! ## Crash-recovery trial
(`CrashRecoveryScenario._run_trial_with_count`,
bench/scenarios/durability/crash_recovery.py:118-263)

The adapter's behaviour is an oracle: per-index write outcomes, whether
`kill`/`restart` raise, and the `get_event` outcome for each written
event during verification.  The content generator (`sha256`-based) and
the checksum function (`md5`-based) are abstracted as parameters; the
claims hold for every choice.  Wall-clock timings are abstracted to 0. -/

/-- Outcome of `adapter.get_event` for one written event. -/
inductive GetOutcome
  | found (content : String) (metadata : List (String × MValue))
  | keyError
  | notSupported
  | otherExc
deriving DecidableEq

/-- Classification buckets of the verification loop. -/
inductive EvClass
  | recovered
  | corrupted
  | lost
deriving DecidableEq

/-- Classification of one written event
(crash_recovery.py:216-242): content match then checksum check; a missing
event (`KeyError`) or any other retrieval error counts as lost; a
`NotSupported` counts the event as recovered. -/
def classifyEvent (checksum : String → String) (origContent : String) : GetOutcome → EvClass
  | .found content metadata =>
    if content = origContent then
      match metadata.lookup "checksum" with
      | some cs => if cs = .s (checksum content) then .recovered else .corrupted
      | none => .recovered
    else .corrupted
  | .keyError => .lost
  | .notSupported => .recovered
  | .otherExc => .lost

/-- Number of events classified into bucket `c`. -/
def countClass (c : EvClass) (l : List EvClass) : Nat :=
  (l.filter (fun x => x = c)).length

theorem countClass_partition (l : List EvClass) :
    countClass .recovered l + countClass .corrupted l + countClass .lost l = l.length := by
  induction l with
  | nil => rfl
  | cons a t ih =>
    cases a <;> simp only [countClass, List.filter] at ih ⊢ <;> simp <;> omega

/-- Adapter behaviour for one crash-recovery trial. -/
structure TrialOracle where
  write : Nat → Except String String
  killExc : Option String
  restartExc : Option String
  get : Nat → GetOutcome

/-- The write loop (crash_recovery.py:135-160) over indices
`s, s+1, ...` with `n` events left: stops at the first failing write. -/
def writeLoop (o : TrialOracle) : Nat → Nat → Except (Nat × String) Unit
  | _, 0 => .ok ()
  | i, n + 1 =>
    match o.write i with
    | .error m => .error (i, m)
    | .ok _ => writeLoop o (i + 1) n

/-- `_run_trial_with_count`: write `event_count` events, kill, restart,
then verify each written event, classifying it as recovered, corrupted
or lost; success iff all recovered and none corrupted. -/
def runTrialWithCount (checksum : String → String) (contentOf : Nat → String) (o : TrialOracle)
    (trial_id event_count : Nat) : TrialResult :=
  match writeLoop o 0 event_count with
  | .error (i, m) =>
    { trial_id := trial_id, success := false,
      metrics := [("event_count", .n event_count), ("events_written", .n i),
                  ("error_type", .s "write_failure")],
      error := some m }
  | .ok _ =>
    match o.killExc with
    | some m =>
      { trial_id := trial_id, success := false,
        metrics := [("event_count", .n event_count), ("events_written", .n event_count),
                    ("error_type", .s "kill_failure")],
        error := some m }
    | none =>
      match o.restartExc with
      | some m =>
        { trial_id := trial_id, success := false,
          metrics := [("event_count", .n event_count), ("events_written", .n event_count),
                      ("error_type", .s "restart_failure")],
          error := some m }
      | none =>
        let classes := (List.range event_count).map
          (fun i => classifyEvent checksum (contentOf i) (o.get i))
        let recovered := countClass .recovered classes
        let corrupted := countClass .corrupted classes
        let lost := countClass .lost classes
        { trial_id := trial_id,
          success := (recovered == event_count) && (corrupted == 0),
          metrics := [("event_count", .n event_count),
                      ("events_written", .n event_count),
                      ("events_recovered", .n recovered),
                      ("events_corrupted", .n corrupted),
                      ("events_lost", .n lost),
                      ("recovery_rate",
                        .n (if 0 < event_count then (recovered : ℚ) / (event_count : ℚ) else 0)),
                      ("write_time_ms", .n 0),
                      ("recovery_time_ms", .n 0)] }

theorem writeLoop_all_ok (o : TrialOracle) (n : Nat) :
    ∀ s, (∀ i, s ≤ i → i < s + n → ∃ h, o.write i = .ok h) →
      writeLoop o s n = .ok () := by
  induction n with
  | zero => intro s _; rfl
  | succ k ih =>
    intro s h
    obtain ⟨hsh, hs⟩ := h s le_rfl (by omega)
    simp only [writeLoop, hs]
    exact ih (s + 1) (fun i h1 h2 => h i (by omega) (by omega))

/-- C1: in `_run_trial_with_count`, once all `N` events are written and
both kill and restart succeed, the verification loop classifies each
written event identifier into exactly one of recovered / corrupted /
lost (so recovered + corrupted + lost = N), a `NotSupported` from
`get_event` counts that event as recovered, and the trial's success flag
is true if and only if recovered = N and corrupted = 0. -/
theorem c1_crash_trial_classification (checksum : String → String) (contentOf : Nat → String)
    (o : TrialOracle) (trial_id N : Nat)
    (hw : ∀ i, i < N → ∃ h, o.write i = .ok h)
    (hk : o.killExc = none) (hr : o.restartExc = none) :
    (countClass .recovered ((List.range N).map
        (fun i => classifyEvent checksum (contentOf i) (o.get i)))
      + countClass .corrupted ((List.range N).map
        (fun i => classifyEvent checksum (contentOf i) (o.get i)))
      + countClass .lost ((List.range N).map
        (fun i => classifyEvent checksum (contentOf i) (o.get i))) = N)
    ∧ ((runTrialWithCount checksum contentOf o trial_id N).success = true ↔
        countClass .recovered ((List.range N).map
          (fun i => classifyEvent checksum (contentOf i) (o.get i))) = N
        ∧ countClass .corrupted ((List.range N).map
          (fun i => classifyEvent checksum (contentOf i) (o.get i))) = 0)
    ∧ (runTrialWithCount checksum contentOf o trial_id N).metrics.lookup "events_recovered" =
        some (.n (countClass .recovered ((List.range N).map
          (fun i => classifyEvent checksum (contentOf i) (o.get i)))))
    ∧ (∀ c, classifyEvent checksum c .notSupported = .recovered) := by
  have hwl : writeLoop o 0 N = .ok () :=
    writeLoop_all_ok o N 0 (fun i _ h2 => hw i (by omega))
  have hpart := countClass_partition ((List.range N).map
    (fun i => classifyEvent checksum (contentOf i) (o.get i)))
  simp only [List.length_map, List.length_range] at hpart
  refine ⟨hpart, ?_, ?_, fun c => rfl⟩ <;>
    simp [runTrialWithCount, hwl, hk, hr, List.lookup]

/-- Witness for C1: two events, `get_event` always raises `NotSupported`;
both count as recovered and the trial succeeds. -/
theorem c1_crash_trial_classification_witness :
    ((runTrialWithCount (fun _ => "cs") (fun i => "Event " ++ toString i)
        { write := fun i => .ok ("h" ++ toString i), killExc := none,
          restartExc := none, get := fun _ => .notSupported } 0 2).success = true ↔
      countClass .recovered ((List.range 2).map
        (fun i => classifyEvent (fun _ => "cs") ((fun i => "Event " ++ toString i) i)
          ((fun _ => GetOutcome.notSupported) i))) = 2
      ∧ countClass .corrupted ((List.range 2).map
        (fun i => classifyEvent (fun _ => "cs") ((fun i => "Event " ++ toString i) i)
          ((fun _ => GetOutcome.notSupported) i))) = 0) :=
  (c1_crash_trial_classification (fun _ => "cs") (fun i => "Event " ++ toString i)
    { write := fun i => .ok ("h" ++ toString i), killExc := none,
      restartExc := none, get := fun _ => .notSupported } 0 2
    (fun i _ => ⟨"h" ++ toString i, rfl⟩) rfl rfl).2.1

/-! ## Crash-recovery run loop
(`CrashRecoveryScenario.run`, bench/scenarios/durability/crash_recovery.py:55-116)

Overrides the default loop: checks `supports("fault_injection")` first and
returns a single not_supported TrialResult if absent (without invoking the
progress callback); otherwise, for each event-count tier, runs
`max(1, trials // len(event_counts))` sub-trials, calling `clear`
(outside any try), the trial body, and then the callback. -/

/-- Adapter behaviour for a crash-recovery run: the fault-injection
support flag, the adapter name, per-trial clear outcomes, and the
TrialResult produced by `_run_trial_with_count` (which never raises). -/
structure CrashOracleRun where
  supportsFI : Bool
  adapterName : String
  clear : Nat → Option String
  body : Nat → Nat → TrialResult

/-- Inner sub-trial loop for one event-count tier `ec`, with `k` sub-trials
left, starting at trial id `tid`.  Returns (results or uncaught clear
exception, callback invocations, next trial id). -/
def crashInner (o : CrashOracleRun) (cb : Bool) (ec : Nat) :
    Nat → Nat → Except String (List TrialResult) × Nat × Nat
  | 0, tid => (.ok [], 0, tid)
  | k + 1, tid =>
    match o.clear tid with
    | some m => (.error m, 0, tid)
    | none =>
      let r := o.body tid ec
      let inc : Nat := if cb then 1 else 0
      match crashInner o cb ec k (tid + 1) with
      | (.error m, c, tid2) => (.error m, inc + c, tid2)
      | (.ok rs, c, tid2) => (.ok (r :: rs), inc + c, tid2)

/-- Outer loop over the event-count tiers; `trials_per_count` is computed
inside the loop (crash_recovery.py:94) from the full tier-list length. -/
def crashOuter (o : CrashOracleRun) (cb : Bool) (trials fullLen : Nat) :
    List Nat → Nat → Except String (List TrialResult) × Nat × Nat
  | [], tid => (.ok [], 0, tid)
  | ec :: rest, tid =>
    let tpc := max 1 (trials / fullLen)
    match crashInner o cb ec tpc tid with
    | (.error m, c, tid2) => (.error m, c, tid2)
    | (.ok rs, c, tid2) =>
      match crashOuter o cb trials fullLen rest tid2 with
      | (.error m, c2, tid3) => (.error m, c + c2, tid3)
      | (.ok rs2, c2, tid3) => (.ok (rs ++ rs2), c + c2, tid3)

/-- The single TrialResult recorded on the unsupported-adapter early
return (crash_recovery.py:80-85). -/
def notSupportedTrial (adapterName : String) : TrialResult :=
  { trial_id := 0, success := false,
    metrics := [("error_type", .s "not_supported")],
    error := some (adapterName ++ " does not support fault injection") }

/-- `CrashRecoveryScenario.run`: recorded trials (or uncaught clear
exception) paired with the number of progress-callback invocations. -/
def crashRun (o : CrashOracleRun) (cb : Bool) (eventCounts : List Nat) (trials : Nat) :
    Except String (List TrialResult) × Nat :=
  if o.supportsFI then
    let r := crashOuter o cb trials eventCounts.length eventCounts 0
    (r.1, r.2.1)
  else
    (.ok [notSupportedTrial o.adapterName], 0)

theorem baseRunFrom_ok_count (o : RunOracle) (n : Nat) :
    ∀ s rs, (baseRunFrom o true s n).1 = .ok rs →
      (baseRunFrom o true s n).2 = rs.length := by
  induction n with
  | zero =>
    intro s rs h
    simp only [baseRunFrom] at h ⊢
    rw [← (Except.ok.inj h)]
    rfl
  | succ k ih =>
    intro s rs h
    cases hc : o.clear s with
    | some m => simp [baseRunFrom, hc] at h
    | none =>
      rcases hrec : baseRunFrom o true (s + 1) k with ⟨res, c⟩
      cases res with
      | error m =>
        simp [baseRunFrom, hc, hrec] at h
      | ok rs0 =>
        have hc0 : c = rs0.length := by
          have := ih (s + 1) rs0
          rw [hrec] at this
          exact this rfl
        simp only [baseRunFrom, hc, hrec] at h ⊢
        rw [← (Except.ok.inj h)]
        simp [hc0]
        omega

theorem crashInner_ok_count (o : CrashOracleRun) (ec : Nat) :
    ∀ k tid rs c tid2, crashInner o true ec k tid = (.ok rs, c, tid2) →
      c = rs.length := by
  intro k
  induction k with
  | zero =>
    intro tid rs c tid2 h
    simp only [crashInner, Prod.mk.injEq] at h
    rw [← h.2.1, ← (Except.ok.inj h.1)]
    rfl
  | succ m ih =>
    intro tid rs c tid2 h
    cases hc : o.clear tid with
    | some e => simp [crashInner, hc] at h
    | none =>
      rcases hrec : crashInner o true ec m (tid + 1) with ⟨res, c0, tid0⟩
      cases res with
      | error e => simp [crashInner, hc, hrec] at h
      | ok rs0 =>
        have hc0 : c0 = rs0.length := ih (tid + 1) rs0 c0 tid0 hrec
        simp only [crashInner, hc, hrec, Prod.mk.injEq] at h
        rw [← h.2.1, ← (Except.ok.inj h.1)]
        simp [hc0]
        omega

theorem crashOuter_ok_count (o : CrashOracleRun) (trials fullLen : Nat) :
    ∀ l tid rs c tid2, crashOuter o true trials fullLen l tid = (.ok rs, c, tid2) →
      c = rs.length := by
  intro l
  induction l with
  | nil =>
    intro tid rs c tid2 h
    simp only [crashOuter, Prod.mk.injEq] at h
    rw [← h.2.1, ← (Except.ok.inj h.1)]
    rfl
  | cons ec rest ih =>
    intro tid rs c tid2 h
    rcases hinner : crashInner o true ec (max 1 (trials / fullLen)) tid with ⟨res1, c1, tid1⟩
    cases res1 with
    | error e => simp [crashOuter, hinner] at h
    | ok rs1 =>
      rcases houter : crashOuter o true trials fullLen rest tid1 with ⟨res2, c2, tid3⟩
      cases res2 with
      | error e => simp [crashOuter, hinner, houter] at h
      | ok rs2 =>
        have h1 : c1 = rs1.length := crashInner_ok_count o ec _ tid rs1 c1 tid1 hinner
        have h2 : c2 = rs2.length := ih tid1 rs2 c2 tid3 houter
        simp only [crashOuter, hinner, houter, Prod.mk.injEq] at h
        rw [← h.2.1, ← (Except.ok.inj h.1)]
        simp [h1, h2]

/-- C7 counterexample: running `CrashRecoveryScenario.run` with a
progress callback against an adapter that does not support
fault_injection returns a ScenarioResult with one TrialResult while the
callback is invoked zero times — so a run recording T = 1 trials invoked
the callback 0 ≠ T times, contradicting the claim. -/
theorem c7_counterexample :
    crashRun
      { supportsFI := false, adapterName := "baseline",
        clear := fun _ => none,
        body := fun tid ec =>
          { trial_id := tid, success := true, metrics := [("event_count", .n ec)] } }
      true [1000, 10000] 3 =
    (.ok [{ trial_id := 0, success := false,
            metrics := [("error_type", .s "not_supported")],
            error := some "baseline does not support fault injection" }], 0) := by
  rfl

/-- C7 (amended): with a progress callback provided, `BaseScenario.run`
and the trial loop of `CrashRecoveryScenario.run` invoke the callback
exactly once per recorded trial (a returned list of T TrialResults means
exactly T invocations); the unsupported-adapter early return of
`CrashRecoveryScenario.run`, however, records one TrialResult without
invoking the callback. -/
theorem c7_callback_per_trial :
    (∀ (o : RunOracle) (trials : Nat) (rs : List TrialResult),
      (baseRun o true trials).1 = .ok rs → (baseRun o true trials).2 = rs.length)
    ∧ (∀ (o : CrashOracleRun) (eventCounts : List Nat) (trials : Nat) (rs : List TrialResult),
        o.supportsFI = true → (crashRun o true eventCounts trials).1 = .ok rs →
          (crashRun o true eventCounts trials).2 = rs.length)
    ∧ (∀ (o : CrashOracleRun) (eventCounts : List Nat) (trials : Nat),
        o.supportsFI = false →
          crashRun o true eventCounts trials = (.ok [notSupportedTrial o.adapterName], 0)) := by
  refine ⟨fun o trials rs h => baseRunFrom_ok_count o trials 0 rs h, ?_, ?_⟩
  · intro o eventCounts trials rs hfi h
    rcases houter : crashOuter o true trials eventCounts.length eventCounts 0 with ⟨res, c, tid⟩
    simp only [crashRun, hfi, if_true, houter] at h ⊢
    cases res with
    | error e => simp at h
    | ok rs0 =>
      have := crashOuter_ok_count o trials eventCounts.length eventCounts 0 rs0 c tid houter
      simp only [Except.ok.injEq] at h
      rw [← h]
      exact this
  · intro o eventCounts trials hfi
    simp [crashRun, hfi]

/-- Witness for the amended C7: a supported two-tier run whose callback
count equals its recorded trial count. -/
theorem c7_callback_per_trial_witness :
    (crashRun
        { supportsFI := true, adapterName := "krnx",
          clear := fun _ => none,
          body := fun tid ec =>
            { trial_id := tid, success := true, metrics := [("event_count", .n ec)] } }
        true [7, 9] 2).2 = 2 := by
  have := c7_callback_per_trial.2.1
      { supportsFI := true, adapterName := "krnx",
        clear := fun _ => none,
        body := fun tid ec =>
          { trial_id := tid, success := true, metrics := [("event_count", .n ec)] } }
      [7, 9] 2
      [{ trial_id := 0, success := true, metrics := [("event_count", .n 7)] },
       { trial_id := 1, success := true, metrics := [("event_count", .n 9)] }]
      rfl rfl
  simpa using this

/-! ## Docker service management
(`DockerManager`, bench/adapters/docker_utils.py)

The Docker daemon is external; containers are modelled as opaque ids
drawn from a fresh counter.  Health checking consumes an observation
oracle: attempt index ↦ what the poll saw.  Each poll iteration sleeps a
fixed interval, so within a `timeout`-second deadline the HTTP and cmd
loops make at most `timeout` attempts (1s sleep) and the run-state loop
at most `2*timeout` attempts (0.5s sleep); wall-clock elapse is
abstracted to that attempt bound. -/

/-- `ServiceConfig` (docker_utils.py:18-30). -/
structure ServiceConfig where
  name : String
  image : String
  ports : List (String × Nat)
  environment : List (String × String) := []
  volumes : List (String × String) := []
  healthcheck_url : Option String := none
  healthcheck_cmd : Option (List String) := none
  depends_on : List String := []
  network : Option String := none
deriving DecidableEq

/-- What one HTTP poll of the health endpoint observed. -/
inductive HttpObs
  | status (code : Nat)
  | connectError
  | timeoutExc
  | otherExc (msg : String)
deriving DecidableEq

/-- What one `exec_run` of the health command observed. -/
inductive CmdObs
  | exits (code : Int)
  | execError
deriving DecidableEq

/-- A health-wait failure: `TimeoutError` or `RuntimeError`, with the
message the Python code builds. -/
inductive HealthFailure
  | timeoutError (msg : String)
  | runtimeError (msg : String)
deriving DecidableEq

/-- Python `str` of an `Optional[str]` as used in an f-string. -/
def pyStrOpt : Option String → String
  | none => "None"
  | some s => s

/-- The `last_error` string recorded for one HTTP poll observation
(docker_utils.py:250-261). -/
def httpErrOf : HttpObs → String
  | .status c => "HTTP " ++ toString c
  | .connectError => "Connection refused"
  | .timeoutExc => "Timeout"
  | .otherExc m => m

/-- `_wait_for_http_health` loop (docker_utils.py:244-267): poll, and on
non-200 record the error and sleep 1s; on deadline raise TimeoutError
carrying the last observed error. -/
def waitHttpAux (obs : Nat → HttpObs) (timeout : Nat) :
    Nat → Nat → Option String → Except HealthFailure Unit
  | _, 0, last =>
    .error (.timeoutError
      ("Service not healthy after " ++ toString timeout ++ "s. Last error: " ++ pyStrOpt last))
  | attempt, fuel + 1, _ =>
    match obs attempt with
    | .status c =>
      if c = 200 then .ok ()
      else waitHttpAux obs timeout (attempt + 1) fuel (some ("HTTP " ++ toString c))
    | .connectError => waitHttpAux obs timeout (attempt + 1) fuel (some "Connection refused")
    | .timeoutExc => waitHttpAux obs timeout (attempt + 1) fuel (some "Timeout")
    | .otherExc m => waitHttpAux obs timeout (attempt + 1) fuel (some m)

def waitForHttpHealth (obs : Nat → HttpObs) (timeout : Nat) : Except HealthFailure Unit :=
  waitHttpAux obs timeout 0 timeout none

/-- `_wait_for_cmd_health` loop (docker_utils.py:269-289): run the probe
command until it exits 0; exceptions from `exec_run` are swallowed; on
deadline raise a TimeoutError whose message does not include any
observed error. -/
def waitCmdAux (obs : Nat → CmdObs) (timeout : Nat) : Nat → Nat → Except HealthFailure Unit
  | _, 0 => .error (.timeoutError ("Health check command failed after " ++ toString timeout ++ "s"))
  | attempt, fuel + 1 =>
    match obs attempt with
    | .exits c => if c = 0 then .ok () else waitCmdAux obs timeout (attempt + 1) fuel
    | .execError => waitCmdAux obs timeout (attempt + 1) fuel

def waitForCmdHealth (obs : Nat → CmdObs) (timeout : Nat) : Except HealthFailure Unit :=
  waitCmdAux obs timeout 0 timeout

/-- `_wait_for_running` loop (docker_utils.py:291-308): poll the
container status (0.5s sleep); "running" succeeds after one settle
delay; "exited"/"dead" raises RuntimeError with the logs; on deadline
raise a TimeoutError whose message does not include any observed
status. -/
def waitRunningAux (obs : Nat → String) (logs : String) (timeout : Nat) :
    Nat → Nat → Except HealthFailure Unit
  | _, 0 => .error (.timeoutError ("Container not running after " ++ toString timeout ++ "s"))
  | attempt, fuel + 1 =>
    let st := obs attempt
    if st = "running" then .ok ()
    else if st = "exited" || st = "dead" then
      .error (.runtimeError ("Container exited unexpectedly. Logs:\n" ++ logs))
    else waitRunningAux obs logs timeout (attempt + 1) fuel

def waitForRunning (obs : Nat → String) (logs : String) (timeout : Nat) :
    Except HealthFailure Unit :=
  waitRunningAux obs logs timeout 0 (2 * timeout)

/-- The observations available to one `start_service` health wait. -/
structure HealthEnv where
  http : Nat → HttpObs
  cmd : Nat → CmdObs
  run : Nat → String
  logs : String

/-- Health-method selection of `start_service` (docker_utils.py:123-130):
declared HTTP URL first, then declared probe command, then the run-state
fallback. -/
def waitForHealth (config : ServiceConfig) (env : HealthEnv) (timeout : Nat) :
    Except HealthFailure Unit :=
  match config.healthcheck_url with
  | some _ => waitForHttpHealth env.http timeout
  | none =>
    match config.healthcheck_cmd with
    | some _ => waitForCmdHealth env.cmd timeout
    | none => waitForRunning env.run env.logs timeout

/-- Registry state of a `DockerManager`: tracked containers (name ↦
opaque container id), stored service configs, and a fresh-id counter. -/
structure DMState where
  containers : List (String × Nat)
  service_configs : List (String × ServiceConfig)
  nextId : Nat
deriving DecidableEq

/-- Python dict assignment `d[k] = v`. -/
def setKey {α : Type} (k : String) (v : α) (l : List (String × α)) : List (String × α) :=
  (k, v) :: l.filter (fun p => p.1 != k)

/-- Python `del d[k]`. -/
def removeKey {α : Type} (k : String) (l : List (String × α)) : List (String × α) :=
  l.filter (fun p => p.1 != k)

/-- `start_service` (docker_utils.py:65-133): removes any stale external
container of the same logical name (daemon-side; no registry effect),
ensures the network, launches a fresh container, records it and the
config in the registries, then waits for health.  On health failure the
TimeoutError/RuntimeError propagates but the registries keep the new
records (faithful to the Python order of effects). -/
def startService (config : ServiceConfig) (env : HealthEnv) (timeout : Nat) (st : DMState) :
    DMState × Except HealthFailure Nat :=
  let cid := st.nextId
  let st1 : DMState :=
    { containers := setKey config.name cid st.containers,
      service_configs := setKey config.name config st.service_configs,
      nextId := st.nextId + 1 }
  match waitForHealth config env timeout with
  | .ok _ => (st1, .ok cid)
  | .error f => (st1, .error f)

/-- `kill_service` (docker_utils.py:152-167): SIGKILL to the tracked
container (daemon-side); raises ValueError for an untracked name; the
container record and the stored config are intentionally retained. -/
def killService (name : String) (st : DMState) : Except String DMState :=
  match st.containers.lookup name with
  | none => .error ("No container with name: " ++ name)
  | some _ => .ok st

/-- `restart_service` (docker_utils.py:169-190): raises ValueError when no
config is stored; otherwise removes the dead container record and re-runs
`start_service` with the originally stored config. -/
def restartService (name : String) (env : HealthEnv) (timeout : Nat) (st : DMState) :
    Except String (DMState × Except HealthFailure Nat) :=
  match st.service_configs.lookup name with
  | none => .error ("No config for service: " ++ name)
  | some config =>
    .ok (startService config env timeout { st with containers := removeKey name st.containers })

theorem lookup_setKey_self {α : Type} (k : String) (v : α) (l : List (String × α)) :
    (setKey k v l).lookup k = some v := by
  simp [setKey, List.lookup]

/-- C4: killing a tracked service changes neither the container registry
nor the stored config registry (the whole manager state is unchanged),
and restarting then removes the dead container record and re-runs
`start_service` with exactly the originally stored ServiceConfig for that
name — after which that config is still the one on record. -/
theorem c4_kill_retains_restart_uses_stored_config
    (st : DMState) (name : String) (cid : Nat) (cfg : ServiceConfig)
    (env : HealthEnv) (timeout : Nat)
    (hc : st.containers.lookup name = some cid)
    (hs : st.service_configs.lookup name = some cfg) :
    killService name st = .ok st
    ∧ restartService name env timeout st =
        .ok (startService cfg env timeout { st with containers := removeKey name st.containers })
    ∧ (startService cfg env timeout
        { st with containers := removeKey name st.containers }).1.service_configs.lookup
        cfg.name = some cfg := by
  refine ⟨?_, ?_, ?_⟩
  · simp [killService, hc]
  · simp [restartService, hs]
  · rcases hw : waitForHealth cfg env timeout with f | u <;>
      simp [startService, hw, lookup_setKey_self]

/-- Witness for C4 at a concrete tracked service. -/
theorem c4_kill_retains_restart_uses_stored_config_witness :
    killService "krnx"
      { containers := [("krnx", 5)],
        service_configs :=
          [("krnx", { name := "krnx", image := "krnx:latest", ports := [("6380", 16380)] })],
        nextId := 6 } =
    .ok { containers := [("krnx", 5)],
          service_configs :=
            [("krnx", { name := "krnx", image := "krnx:latest", ports := [("6380", 16380)] })],
          nextId := 6 } :=
  (c4_kill_retains_restart_uses_stored_config
    { containers := [("krnx", 5)],
      service_configs :=
        [("krnx", { name := "krnx", image := "krnx:latest", ports := [("6380", 16380)] })],
      nextId := 6 }
    "krnx" 5 { name := "krnx", image := "krnx:latest", ports := [("6380", 16380)] }
    { http := fun _ => .status 200, cmd := fun _ => .exits 0,
      run := fun _ => "running", logs := "" }
    10 rfl rfl).1

/-- Did one HTTP poll observe a success status (the code tests
`resp.status_code == 200`)? -/
def isHttp200 : HttpObs → Bool
  | .status c => c == 200
  | _ => false

/-- Did one probe-command run exit zero? -/
def isCmdOk : CmdObs → Bool
  | .exits c => c == 0
  | _ => false

theorem waitHttpAux_step (obs : Nat → HttpObs) (T attempt f : Nat) (last : Option String)
    (hf : isHttp200 (obs attempt) = false) :
    waitHttpAux obs T attempt (f + 1) last =
      waitHttpAux obs T (attempt + 1) f (some (httpErrOf (obs attempt))) := by
  cases ho : obs attempt with
  | status c =>
    rw [ho] at hf
    have hc : ¬ c = 200 := by simpa [isHttp200] using hf
    simp [waitHttpAux, ho, hc, httpErrOf]
  | connectError => simp [waitHttpAux, ho, httpErrOf]
  | timeoutExc => simp [waitHttpAux, ho, httpErrOf]
  | otherExc m => simp [waitHttpAux, ho, httpErrOf]

theorem waitHttpAux_all_fail (obs : Nat → HttpObs) (T : Nat) :
    ∀ fuel attempt last,
      (∀ k, attempt ≤ k → k < attempt + fuel → isHttp200 (obs k) = false) →
      waitHttpAux obs T attempt fuel last =
        .error (.timeoutError
          ("Service not healthy after " ++ toString T ++ "s. Last error: " ++
            pyStrOpt (if fuel = 0 then last
                      else some (httpErrOf (obs (attempt + fuel - 1)))))) := by
  intro fuel
  induction fuel with
  | zero => intro attempt last _; simp [waitHttpAux]
  | succ f ih =>
    intro attempt last h
    rw [waitHttpAux_step obs T attempt f last (h attempt le_rfl (by omega))]
    rw [ih (attempt + 1) _ (fun k h1 h2 => h k (by omega) (by omega))]
    cases f with
    | zero => simp
    | succ g =>
      have hidx : attempt + 1 + (g + 1) - 1 = attempt + (g + 1 + 1) - 1 := by omega
      simp [hidx]

theorem waitHttpAux_first_success (obs : Nat → HttpObs) (T : Nat) :
    ∀ fuel attempt last k, attempt ≤ k → k < attempt + fuel →
      isHttp200 (obs k) = true →
      (∀ j, attempt ≤ j → j < k → isHttp200 (obs j) = false) →
      waitHttpAux obs T attempt fuel last = .ok () := by
  intro fuel
  induction fuel with
  | zero => intro attempt last k h1 h2 _ _; omega
  | succ f ih =>
    intro attempt last k h1 h2 hk hpre
    by_cases hka : k = attempt
    · subst hka
      cases ho : obs k with
      | status c =>
        rw [ho] at hk
        have hc : c = 200 := by simpa [isHttp200] using hk
        simp [waitHttpAux, ho, hc]
      | connectError => rw [ho] at hk; simp [isHttp200] at hk
      | timeoutExc => rw [ho] at hk; simp [isHttp200] at hk
      | otherExc m => rw [ho] at hk; simp [isHttp200] at hk
    · rw [waitHttpAux_step obs T attempt f last (hpre attempt le_rfl (by omega))]
      exact ih (attempt + 1) _ k (by omega) (by omega) hk
        (fun j hj1 hj2 => hpre j (by omega) hj2)

theorem waitCmdAux_step (obs : Nat → CmdObs) (T attempt f : Nat)
    (hf : isCmdOk (obs attempt) = false) :
    waitCmdAux obs T attempt (f + 1) = waitCmdAux obs T (attempt + 1) f := by
  cases ho : obs attempt with
  | exits c =>
    rw [ho] at hf
    have hc : ¬ c = 0 := by simpa [isCmdOk] using hf
    simp [waitCmdAux, ho, hc]
  | execError => simp [waitCmdAux, ho]

theorem waitCmdAux_all_fail (obs : Nat → CmdObs) (T : Nat) :
    ∀ fuel attempt,
      (∀ k, attempt ≤ k → k < attempt + fuel → isCmdOk (obs k) = false) →
      waitCmdAux obs T attempt fuel =
        .error (.timeoutError ("Health check command failed after " ++ toString T ++ "s")) := by
  intro fuel
  induction fuel with
  | zero => intro attempt _; rfl
  | succ f ih =>
    intro attempt h
    rw [waitCmdAux_step obs T attempt f (h attempt le_rfl (by omega))]
    exact ih (attempt + 1) (fun k h1 h2 => h k (by omega) (by omega))

theorem waitCmdAux_first_success (obs : Nat → CmdObs) (T : Nat) :
    ∀ fuel attempt k, attempt ≤ k → k < attempt + fuel →
      isCmdOk (obs k) = true →
      (∀ j, attempt ≤ j → j < k → isCmdOk (obs j) = false) →
      waitCmdAux obs T attempt fuel = .ok () := by
  intro fuel
  induction fuel with
  | zero => intro attempt k h1 h2 _ _; omega
  | succ f ih =>
    intro attempt k h1 h2 hk hpre
    by_cases hka : k = attempt
    · subst hka
      cases ho : obs k with
      | exits c =>
        rw [ho] at hk
        have hc : c = 0 := by simpa [isCmdOk] using hk
        simp [waitCmdAux, ho, hc]
      | execError => rw [ho] at hk; simp [isCmdOk] at hk
    · rw [waitCmdAux_step obs T attempt f (hpre attempt le_rfl (by omega))]
      exact ih (attempt + 1) k (by omega) (by omega) hk
        (fun j hj1 hj2 => hpre j (by omega) hj2)

/-- Is a container status one the run-state poll reacts to? -/
def isRunReactive (s : String) : Bool :=
  s == "running" || s == "exited" || s == "dead"

theorem waitRunningAux_step (obs : Nat → String) (logs : String) (T attempt f : Nat)
    (hf : isRunReactive (obs attempt) = false) :
    waitRunningAux obs logs T attempt (f + 1) = waitRunningAux obs logs T (attempt + 1) f := by
  have h1 : ¬ obs attempt = "running" := by
    intro hx; rw [hx] at hf; simp [isRunReactive] at hf
  have h2 : ¬ (obs attempt == "exited" || obs attempt == "dead") = true := by
    intro hx
    simp only [isRunReactive, Bool.or_eq_false_iff] at hf
    rcases Bool.or_eq_true_iff.mp hx with h | h
    · rw [h] at hf; simp at hf
    · rw [h] at hf; simp at hf
  simp only [waitRunningAux, if_neg h1]
  rw [if_neg (by simpa using h2)]

theorem waitRunningAux_all_quiet (obs : Nat → String) (logs : String) (T : Nat) :
    ∀ fuel attempt,
      (∀ k, attempt ≤ k → k < attempt + fuel → isRunReactive (obs k) = false) →
      waitRunningAux obs logs T attempt fuel =
        .error (.timeoutError ("Container not running after " ++ toString T ++ "s")) := by
  intro fuel
  induction fuel with
  | zero => intro attempt _; rfl
  | succ f ih =>
    intro attempt h
    rw [waitRunningAux_step obs logs T attempt f (h attempt le_rfl (by omega))]
    exact ih (attempt + 1) (fun k h1 h2 => h k (by omega) (by omega))

theorem waitRunningAux_first_running (obs : Nat → String) (logs : String) (T : Nat) :
    ∀ fuel attempt k, attempt ≤ k → k < attempt + fuel →
      obs k = "running" →
      (∀ j, attempt ≤ j → j < k → isRunReactive (obs j) = false) →
      waitRunningAux obs logs T attempt fuel = .ok () := by
  intro fuel
  induction fuel with
  | zero => intro attempt k h1 h2 _ _; omega
  | succ f ih =>
    intro attempt k h1 h2 hk hpre
    by_cases hka : k = attempt
    · subst hka
      simp [waitRunningAux, hk]
    · rw [waitRunningAux_step obs logs T attempt f (hpre attempt le_rfl (by omega))]
      exact ih (attempt + 1) k (by omega) (by omega) hk
        (fun j hj1 hj2 => hpre j (by omega) hj2)

theorem waitRunningAux_first_exit (obs : Nat → String) (logs : String) (T : Nat) :
    ∀ fuel attempt k, attempt ≤ k → k < attempt + fuel →
      (obs k = "exited" ∨ obs k = "dead") →
      (∀ j, attempt ≤ j → j < k → isRunReactive (obs j) = false) →
      waitRunningAux obs logs T attempt fuel =
        .error (.runtimeError ("Container exited unexpectedly. Logs:\n" ++ logs)) := by
  intro fuel
  induction fuel with
  | zero => intro attempt k h1 h2 _ _; omega
  | succ f ih =>
    intro attempt k h1 h2 hk hpre
    by_cases hka : k = attempt
    · subst hka
      have hnr : ¬ obs k = "running" := by
        rcases hk with h | h <;> rw [h] <;> decide
      have hor : (obs k == "exited" || obs k == "dead") = true := by
        rcases hk with h | h <;> simp [h]
      simp only [waitRunningAux, if_neg hnr]
      rw [if_pos (by simpa using hor)]
    · rw [waitRunningAux_step obs logs T attempt f (hpre attempt le_rfl (by omega))]
      exact ih (attempt + 1) k (by omega) (by omega) hk
        (fun j hj1 hj2 => hpre j (by omega) hj2)

/-- C8 counterexample: the probe-command health path, timing out after
observing only nonzero exit codes, raises a TimeoutError whose message
is the fixed string "Health check command failed after 2s" — identical
for exit code 7 and exit code 9 — so it does not carry the last observed
error, contradicting the claim that the selected method's TimeoutError
carries the last observed error. -/
theorem c8_counterexample :
    waitForCmdHealth (fun _ => .exits 7) 2 =
      .error (.timeoutError "Health check command failed after 2s")
    ∧ waitForCmdHealth (fun _ => .exits 9) 2 = waitForCmdHealth (fun _ => .exits 7) 2 :=
  ⟨rfl, rfl⟩

/-- C8 (amended): `start_service` selects the health method in priority
order — declared HTTP URL, else declared probe command, else run-state
polling — and propagates the selected wait's outcome; the HTTP poll
succeeds at the first 200 status and on deadline raises TimeoutError
carrying the last observed error; the probe-command poll succeeds at the
first zero exit and on deadline raises TimeoutError with a generic
message (not carrying the observed error); the run-state poll succeeds
once the container is running (after a settle delay, abstracted),
raises RuntimeError if it reaches exited/dead, and on deadline raises a
generic TimeoutError. -/
theorem c8_health_priority_and_timeout :
    (∀ (cfg : ServiceConfig) (env : HealthEnv) (t : Nat) (u : String),
      cfg.healthcheck_url = some u →
      waitForHealth cfg env t = waitForHttpHealth env.http t)
    ∧ (∀ (cfg : ServiceConfig) (env : HealthEnv) (t : Nat) (c : List String),
        cfg.healthcheck_url = none → cfg.healthcheck_cmd = some c →
        waitForHealth cfg env t = waitForCmdHealth env.cmd t)
    ∧ (∀ (cfg : ServiceConfig) (env : HealthEnv) (t : Nat),
        cfg.healthcheck_url = none → cfg.healthcheck_cmd = none →
        waitForHealth cfg env t = waitForRunning env.run env.logs t)
    ∧ (∀ (cfg : ServiceConfig) (env : HealthEnv) (t : Nat) (st : DMState),
        (startService cfg env t st).2 =
          (waitForHealth cfg env t).map (fun _ => st.nextId))
    ∧ (∀ (obs : Nat → HttpObs) (t k : Nat), k < t →
        isHttp200 (obs k) = true → (∀ j, j < k → isHttp200 (obs j) = false) →
        waitForHttpHealth obs t = .ok ())
    ∧ (∀ (obs : Nat → HttpObs) (t : Nat), 0 < t →
        (∀ k, k < t → isHttp200 (obs k) = false) →
        waitForHttpHealth obs t =
          .error (.timeoutError
            ("Service not healthy after " ++ toString t ++ "s. Last error: " ++
              httpErrOf (obs (t - 1)))))
    ∧ (∀ (obs : Nat → CmdObs) (t k : Nat), k < t →
        isCmdOk (obs k) = true → (∀ j, j < k → isCmdOk (obs j) = false) →
        waitForCmdHealth obs t = .ok ())
    ∧ (∀ (obs : Nat → CmdObs) (t : Nat),
        (∀ k, k < t → isCmdOk (obs k) = false) →
        waitForCmdHealth obs t =
          .error (.timeoutError ("Health check command failed after " ++ toString t ++ "s")))
    ∧ (∀ (obs : Nat → String) (logs : String) (t k : Nat), k < 2 * t →
        obs k = "running" → (∀ j, j < k → isRunReactive (obs j) = false) →
        waitForRunning obs logs t = .ok ())
    ∧ (∀ (obs : Nat → String) (logs : String) (t k : Nat), k < 2 * t →
        (obs k = "exited" ∨ obs k = "dead") →
        (∀ j, j < k → isRunReactive (obs j) = false) →
        waitForRunning obs logs t =
          .error (.runtimeError ("Container exited unexpectedly. Logs:\n" ++ logs)))
    ∧ (∀ (obs : Nat → String) (logs : String) (t : Nat),
        (∀ k, k < 2 * t → isRunReactive (obs k) = false) →
        waitForRunning obs logs t =
          .error (.timeoutError ("Container not running after " ++ toString t ++ "s"))) := by
  refine ⟨?_, ?_, ?_, ?_, ?_, ?_, ?_, ?_, ?_, ?_, ?_⟩
  · intro cfg env t u hu; simp [waitForHealth, hu]
  · intro cfg env t c hu hc; simp [waitForHealth, hu, hc]
  · intro cfg env t hu hc; simp [waitForHealth, hu, hc]
  · intro cfg env t st
    rcases hw : waitForHealth cfg env t with f | v
    · simp [startService, hw, Except.map]
    · simp [startService, hw, Except.map]
  · intro obs t k hk hsucc hpre
    exact waitHttpAux_first_success obs t t 0 none k (by omega) (by omega) hsucc
      (fun j _ hj => hpre j hj)
  · intro obs t ht h
    have := waitHttpAux_all_fail obs t t 0 none (fun k _ hk => h k (by omega))
    rw [waitForHttpHealth, this]
    have hne : ¬ t = 0 := by omega
    simp [hne, pyStrOpt]
  · intro obs t k hk hsucc hpre
    exact waitCmdAux_first_success obs t t 0 k (by omega) (by omega) hsucc
      (fun j _ hj => hpre j hj)
  · intro obs t h
    exact waitCmdAux_all_fail obs t t 0 (fun k _ hk => h k (by omega))
  · intro obs logs t k hk hrun hpre
    exact waitRunningAux_first_running obs logs t (2 * t) 0 k (by omega) (by omega) hrun
      (fun j _ hj => hpre j hj)
  · intro obs logs t k hk hexit hpre
    exact waitRunningAux_first_exit obs logs t (2 * t) 0 k (by omega) (by omega) hexit
      (fun j _ hj => hpre j hj)
  · intro obs logs t h
    exact waitRunningAux_all_quiet obs logs t (2 * t) 0 (fun k _ hk => h k (by omega))

/-- Witness for the amended C8: the HTTP path timing out after two
connection refusals carries "Connection refused" as the last observed
error. -/
theorem c8_health_priority_and_timeout_witness :
    waitForHttpHealth (fun _ => .connectError) 2 =
      .error (.timeoutError "Service not healthy after 2s. Last error: Connection refused") := by
  have := c8_health_priority_and_timeout.2.2.2.2.2.1
      (fun _ => .connectError) 2 (by omega) (fun k _ => rfl)
  simpa using this

/-! ## Capability gating across adapter variants
(bench/adapters/base.py:102-197, baseline.py:94-115, naive_rag.py:261-327,
krnx.py:185-337)

The gating relation between capabilities and extended operations is the
one the source itself uses: the replay scenarios guard `replay_to` behind
`supports("replay")`, the provenance scenario guards `get_provenance`
behind `supports("provenance")`, and the crash-recovery scenario guards
its `kill`/`restart`/`get_event` usage behind
`supports("fault_injection")`; no operation in the source is gated on
`versioning`. -/

inductive Capability
  | replay
  | provenance
  | fault_injection
  | versioning
deriving DecidableEq

inductive ExtOp
  | get_event
  | replay_to
  | get_provenance
  | kill
  | restart
deriving DecidableEq

inductive AdapterKind
  | protocolDefault
  | baseline
  | naiveRag
  | krnx
deriving DecidableEq

/-- What a call of an extended operation does on a given adapter variant:
raise `NotSupported` unconditionally, or perform its real operation. -/
inductive ExtBehavior
  | raisesNotSupp
  | performs
deriving DecidableEq

/-- `supports` per variant: the protocol default returns False
(base.py:184-197); baseline supports nothing (baseline.py:113-115);
naive_rag supports only fault_injection (naive_rag.py:323-327); krnx
supports all four (krnx.py:329-337). -/
def supports : AdapterKind → Capability → Bool
  | .protocolDefault, _ => false
  | .baseline, _ => false
  | .naiveRag, c => c == .fault_injection
  | .krnx, _ => true

/-- Extended-operation behaviour per variant: the protocol defaults all
raise (base.py:102-169); baseline raises everywhere (baseline.py:94-107);
naive_rag raises for replay_to and get_provenance (naive_rag.py:290-294)
but implements get_event, kill and restart (naive_rag.py:261-309); krnx
implements all five (krnx.py:185-315). -/
def extBehavior : AdapterKind → ExtOp → ExtBehavior
  | .protocolDefault, _ => .raisesNotSupp
  | .baseline, _ => .raisesNotSupp
  | .naiveRag, .replay_to => .raisesNotSupp
  | .naiveRag, .get_provenance => .raisesNotSupp
  | .naiveRag, _ => .performs
  | .krnx, _ => .performs

/-- The extended operations gated on each capability, as used by the
scenarios in the source (see the section comment). -/
def gatedOps : Capability → List ExtOp
  | .replay => [.replay_to]
  | .provenance => [.get_provenance]
  | .fault_injection => [.kill, .restart, .get_event]
  | .versioning => []

/-- C5: for every adapter variant and every capability in
{replay, provenance, fault_injection, versioning} that the variant's
`supports` denies, every extended operation gated on that capability
raises `NotSupported` when called — it never performs the operation (so
it never silently no-ops or returns a default value). -/
theorem c5_capability_gating (a : AdapterKind) (c : Capability)
    (h : supports a c = false) :
    ∀ op, op ∈ gatedOps c → extBehavior a op = .raisesNotSupp := by
  cases a <;> cases c <;> revert h <;> decide

/-- Witness for C5: the baseline variant denies replay, and its
`replay_to` raises `NotSupported`. -/
theorem c5_capability_gating_witness :
    supports .baseline .replay = false
    ∧ extBehavior .baseline .replay_to = .raisesNotSupp :=
  ⟨rfl, c5_capability_gating .baseline .replay rfl .replay_to (by decide)⟩

/-! ## Adapter setup-state gating
(`BaseAdapter._ensure_setup`, bench/adapters/base.py:222-225, and the
per-adapter operation bodies).  Backend effects (Qdrant, HTTP) are
external; only the setup gate and the baseline counter are modelled. -/

/-- The message of the `AdapterError` raised by `_ensure_setup`. -/
def notSetUpMsg (name : String) : String :=
  name ++ " adapter not set up. Call setup() first."

/-- `BaselineAdapter` state: the `_setup_complete` flag and the event
counter. -/
structure BaselineState where
  setup_complete : Bool
  event_count : Nat
deriving DecidableEq

/-- `BaselineAdapter.clear` (baseline.py:47-49): resets the event counter
without calling `_ensure_setup`. -/
def baselineClear (s : BaselineState) : Except String BaselineState :=
  .ok { s with event_count := 0 }

/-- `BaselineAdapter.write_event` (baseline.py:51-63): `_ensure_setup`,
then increment the counter and return a fake hash. -/
def baselineWriteEvent (s : BaselineState) : Except String (BaselineState × String) :=
  if s.setup_complete then
    .ok ({ s with event_count := s.event_count + 1 },
         "baseline-" ++ toString (s.event_count + 1))
  else .error (notSetUpMsg "baseline")

/-- `BaselineAdapter.query` (baseline.py:65-88): `_ensure_setup`, then the
(external) LLM call. -/
def baselineQuery (s : BaselineState) : Except String Unit :=
  if s.setup_complete then .ok () else .error (notSetUpMsg "baseline")

/-- `NaiveRAGAdapter.clear` (naive_rag.py:123-133): `_ensure_setup`, then
Qdrant collection reset (external). -/
def naiveRagClear (setup_complete : Bool) : Except String Unit :=
  if setup_complete then .ok () else .error (notSetUpMsg "naive_rag")

/-- `NaiveRAGAdapter.write_event` (naive_rag.py:150-182) gate. -/
def naiveRagWriteEvent (setup_complete : Bool) : Except String Unit :=
  if setup_complete then .ok () else .error (notSetUpMsg "naive_rag")

/-- `NaiveRAGAdapter.query` (naive_rag.py:184-222) gate. -/
def naiveRagQuery (setup_complete : Bool) : Except String Unit :=
  if setup_complete then .ok () else .error (notSetUpMsg "naive_rag")

/-- `KRNXDockerAdapter.clear` (krnx.py:141-159) gate. -/
def krnxClear (setup_complete : Bool) : Except String Unit :=
  if setup_complete then .ok () else .error (notSetUpMsg "krnx")

/-- `KRNXDockerAdapter.write_event` (krnx.py:161-183) gate. -/
def krnxWriteEvent (setup_complete : Bool) : Except String Unit :=
  if setup_complete then .ok () else .error (notSetUpMsg "krnx")

/-- `KRNXDockerAdapter.query` (krnx.py:201-241) gate. -/
def krnxQuery (setup_complete : Bool) : Except String Unit :=
  if setup_complete then .ok () else .error (notSetUpMsg "krnx")

/-- C6 counterexample: `BaselineAdapter.clear()` called before `setup()`
(setup_complete = false) does not raise the "adapter not set up"
AdapterError — it silently resets the event counter and succeeds,
contradicting the claim that every adapter fails clear() outside the
setup-complete state. -/
theorem c6_counterexample :
    baselineClear { setup_complete := false, event_count := 5 } =
      .ok { setup_complete := false, event_count := 0 } := by
  rfl

/-- C6 (amended): outside the setup-complete state, `write_event` and
`query` fail with the "adapter not set up" AdapterError on every adapter
variant, and `clear` does so on the naive_rag and krnx variants; but
`BaselineAdapter.clear` performs no setup check and silently resets its
event counter. -/
theorem c6_setup_gating :
    (∀ s : BaselineState, s.setup_complete = false →
      baselineWriteEvent s = .error (notSetUpMsg "baseline")
      ∧ baselineQuery s = .error (notSetUpMsg "baseline"))
    ∧ naiveRagClear false = .error (notSetUpMsg "naive_rag")
    ∧ naiveRagWriteEvent false = .error (notSetUpMsg "naive_rag")
    ∧ naiveRagQuery false = .error (notSetUpMsg "naive_rag")
    ∧ krnxClear false = .error (notSetUpMsg "krnx")
    ∧ krnxWriteEvent false = .error (notSetUpMsg "krnx")
    ∧ krnxQuery false = .error (notSetUpMsg "krnx")
    ∧ (∀ s : BaselineState, baselineClear s = .ok { s with event_count := 0 }) := by
  refine ⟨fun s h => ⟨?_, ?_⟩, rfl, rfl, rfl, rfl, rfl, rfl, fun s => rfl⟩
  · simp [baselineWriteEvent, h]
  · simp [baselineQuery, h]

/-- Witness for the amended C6 at a concrete un-setup baseline state. -/
theorem c6_setup_gating_witness :
    baselineWriteEvent { setup_complete := false, event_count := 3 } =
      .error (notSetUpMsg "baseline") :=
  (c6_setup_gating.1 { setup_complete := false, event_count := 3 } rfl).1

/-! ## Event construction
(`Event.__post_init__`, bench/models.py:12-29)

Python dicts are aliased objects: the metadata mapping is held by
reference into a store of dicts, so the in-place `event_id` insertion on
a caller-supplied dict is observable at the caller's reference.  The
current wall-clock time and the generated UUID are oracle parameters. -/

/-- A heap of Python dict objects, addressed by allocation index. -/
structure PyDictStore where
  dicts : Nat → List (String × String)
  next : Nat

/-- Overwrite the dict object at address `a`. -/
def storeWrite (st : PyDictStore) (a : Nat) (d : List (String × String)) : PyDictStore :=
  { st with dicts := fun x => if x = a then d else st.dicts x }

/-- The constructor arguments of `Event` with the dataclass defaults;
`metadata := none` stands for the `field(default_factory=dict)` case
(a fresh empty dict is allocated), `some a` for a caller-supplied dict
at address `a`. -/
structure EventArgs where
  content : String
  event_type : String := "generic"
  workspace_id : String := "default"
  user_id : Option String := none
  session_id : Option String := none
  timestamp : Option ℚ := none
  metadata : Option Nat := none
  parent_hash : Option String := none

/-- An `Event` object after `__post_init__`; `metadataAddr` is the
reference to its metadata dict in the store. -/
structure EventObj where
  content : String
  event_type : String
  workspace_id : String
  user_id : Option String
  session_id : Option String
  timestamp : Option ℚ
  metadataAddr : Nat
  parent_hash : Option String

/-- `Event(...)` construction followed by `__post_init__`
(models.py:25-29): allocate a fresh empty metadata dict when none was
passed; default the timestamp to the current time; insert a freshly
generated `event_id` into the metadata dict when the key is absent
(mutating the referenced dict in place). -/
def mkEvent (args : EventArgs) (now : ℚ) (freshUuid : String) (st : PyDictStore) :
    EventObj × PyDictStore :=
  let p : Nat × PyDictStore :=
    match args.metadata with
    | some a => (a, st)
    | none => (st.next,
               { dicts := fun x => if x = st.next then [] else st.dicts x,
                 next := st.next + 1 })
  let addr := p.1
  let st1 := p.2
  let ts : Option ℚ :=
    match args.timestamp with
    | none => some now
    | some t => some t
  let st2 :=
    match (st1.dicts addr).lookup "event_id" with
    | some _ => st1
    | none => storeWrite st1 addr (("event_id", freshUuid) :: st1.dicts addr)
  ({ content := args.content, event_type := args.event_type,
     workspace_id := args.workspace_id, user_id := args.user_id,
     session_id := args.session_id, timestamp := ts,
     metadataAddr := addr, parent_hash := args.parent_hash }, st2)

/-- C10: constructing an Event always leaves a non-None timestamp
(defaulting to the current time when omitted) and a metadata mapping
containing the key "event_id" (a freshly generated UUID is inserted when
absent); when the caller passes an existing metadata dict without an
"event_id" key, the insertion mutates the caller's dict in place (the
event aliases the caller's address and the dict at that address gains
the key). -/
theorem c10_event_post_init (args : EventArgs) (now : ℚ) (uuid : String) (st : PyDictStore) :
    ((mkEvent args now uuid st).1.timestamp).isSome = true
    ∧ (args.timestamp = none → (mkEvent args now uuid st).1.timestamp = some now)
    ∧ (((mkEvent args now uuid st).2.dicts
          (mkEvent args now uuid st).1.metadataAddr).lookup "event_id").isSome = true
    ∧ (∀ a, args.metadata = some a →
        (mkEvent args now uuid st).1.metadataAddr = a
        ∧ ((st.dicts a).lookup "event_id" = none →
            ((mkEvent args now uuid st).2.dicts a).lookup "event_id" = some uuid)) := by
  refine ⟨?_, ?_, ?_, ?_⟩
  · rcases hm : args.metadata with _ | a <;>
      rcases hts : args.timestamp with _ | t <;>
        simp [mkEvent, hm, hts]
  · intro hts
    rcases hm : args.metadata with _ | a <;> simp [mkEvent, hm, hts]
  · rcases hm : args.metadata with _ | a
    · simp [mkEvent, hm, storeWrite, List.lookup]
    · rcases hl : (st.dicts a).lookup "event_id" with _ | v
      · simp [mkEvent, hm, hl, storeWrite, List.lookup]
      · simp [mkEvent, hm, hl]
  · intro a ha
    refine ⟨by simp [mkEvent, ha], fun hl => ?_⟩
    simp [mkEvent, ha, hl, storeWrite, List.lookup]

/-- Witness for C10: a caller-supplied empty dict at address 0 gains the
generated event_id in place. -/
theorem c10_event_post_init_witness :
    ((mkEvent { content := "hi", metadata := some 0 } 5 "u1"
        { dicts := fun _ => [], next := 1 }).2.dicts 0).lookup "event_id" = some "u1" :=
  ((c10_event_post_init { content := "hi", metadata := some 0 } 5 "u1"
      { dicts := fun _ => [], next := 1 }).2.2.2 0 rfl).2 rfl

end KrnxBench
